import Mathlib

/-!
# Verification of the Redshaw-xG client-side prediction pipeline

Shallow embedding of `src/frontend/js/xg_inference.js` and the heatmap
sampling loop of `src/frontend/js/heatmap.js`.

Modelling conventions:
* JavaScript numbers are modelled as exact rationals (`ℚ`); where the code
  computes with `Math.sqrt` / `Math.acos` (feature engineering only) we use
  the real-valued functions `Real.sqrt` / `Real.arccos` over `ℝ`.
* A JavaScript value that may be `null`/`undefined` is an `Option`;
  `parseFloat` results that may be `NaN` are an inner `Option ℚ`
  (`none` = `NaN`, i.e. a non-numeric value).
* Primitive JS values relevant to the strict comparison
  `normalisation.is_normalised === false` are modelled by `JsPrim`.
* Throwing an error is modelled by `Except String` / an `error` constructor.
-/

/-- A primitive JavaScript value, as far as the code inspects one:
`null`, a boolean, a number or a string.  Used for the `is_normalised`
field, which the source compares with `=== false` (strict equality). -/
inductive JsPrim where
  | jsNull : JsPrim
  | bool (b : Bool) : JsPrim
  | num (q : ℚ) : JsPrim
  | str (s : String) : JsPrim
deriving DecidableEq, Repr

/-- The normalisation config object passed to `determineModel`.
`is_normalised = none` models an object without the `is_normalised` key
(`hasOwnProperty` fails); `some v` models the key being present with value
`v`.  For the two pitch dimensions the outer `Option` is the
`maxWidth == null` check and the inner `Option` is the result of
`parseFloat` (`none` = `NaN`). -/
structure Normalisation where
  is_normalised : Option JsPrim
  max_pitch_width : Option (Option ℚ) := none
  max_pitch_length : Option (Option ℚ) := none
deriving DecidableEq, Repr

/-- Result record of a successful `determineModel` call (mirrors the JS
object `{ chosenModel, x, y, situation, shotType, error: null }`). -/
structure Determined where
  chosenModel : String
  x : ℚ
  y : ℚ
  situation : Option String
  shotType : Option String
deriving DecidableEq, Repr

/-- `VALID_SITUATIONS` from xg_inference.js. -/
def VALID_SITUATIONS : List String :=
  ["OpenPlay", "SetPiece", "DirectFreekick", "FromCorner", "Penalty"]

/-- `VALID_SHOT_TYPES` from xg_inference.js. -/
def VALID_SHOT_TYPES : List String :=
  ["Head", "RightFoot", "LeftFoot", "OtherBodyPart"]

/-- `isValidSituation`: true when the situation is null/empty or a
recognised value. -/
def isValidSituation (situation : Option String) : Bool :=
  match situation with
  | none => true
  | some s => s == "" || VALID_SITUATIONS.contains s

/-- `isValidShotType`: true when the shot type is null/empty or a
recognised value. -/
def isValidShotType (shotType : Option String) : Bool :=
  match shotType with
  | none => true
  | some s => s == "" || VALID_SHOT_TYPES.contains s

/-- Lines 112-135 of xg_inference.js: when `is_normalised === false`,
require both pitch dimensions (non-null, numeric, strictly positive) and
divide `x` by the length and `y` by the width; any other `is_normalised`
value passes the coordinates through untouched. -/
def normaliseStep (x y : ℚ) (n : Normalisation) : Except String (ℚ × ℚ) :=
  if n.is_normalised = some (JsPrim.bool false) then
    match n.max_pitch_width, n.max_pitch_length with
    | none, _ =>
      .error "max_pitch_width and max_pitch_length are required when is_normalised is false."
    | _, none =>
      .error "max_pitch_width and max_pitch_length are required when is_normalised is false."
    | some mw, some ml =>
      match mw, ml with
      | none, _ => .error "max_pitch_width and max_pitch_length must be positive numbers."
      | _, none => .error "max_pitch_width and max_pitch_length must be positive numbers."
      | some w, some l =>
        if w ≤ 0 ∨ l ≤ 0 then
          .error "The maximum width and length of the pitch cannot be a negative value."
        else
          .ok (x / l, y / w)
  else
    .ok (x, y)

/-- Line 144-145 of xg_inference.js: collapse an empty-string
situation/shotType to null so downstream logic is consistent. -/
def collapseEmpty (o : Option String) : Option String :=
  if o = some "" then none else o

/-- Lines 147-151 of xg_inference.js: the four-way chosen-model if-chain
over the collapsed situation/shotType. -/
def chooseModelName (sit sht : Option String) : String :=
  if sit = none ∧ sht = none then "basic_model"
  else if sit = none ∧ sht ≠ none then "shottype_model"
  else if sit ≠ none ∧ sht = none then "situation_model"
  else "advanced_model"

/-- `determineModel` from xg_inference.js: validates the normalisation
config, normalises the coordinates when `is_normalised === false`,
bounds-checks the resulting coordinates, collapses empty-string
situation/shotType to null, and selects the model name. -/
def determineModel (x y : ℚ) (situation shotType : Option String)
    (normalisation : Option Normalisation) : Except String Determined :=
  match normalisation with
  | none => .error "Normalisation object must contain an is_normalised key."
  | some n =>
    if n.is_normalised = none then
      .error "Normalisation object must contain an is_normalised key."
    else
      match normaliseStep x y n with
      | .error e => .error e
      | .ok (x2, y2) =>
        if x2 < 0 ∨ 1 < x2 ∨ y2 < 0 ∨ 1 < y2 then
          .error "Coordinates have been incorrectly claimed as normalised - ensure values are between 0 and 1."
        else
          .ok ⟨chooseModelName (collapseEmpty situation) (collapseEmpty shotType),
               x2, y2, collapseEmpty situation, collapseEmpty shotType⟩

deriving instance DecidableEq for Except

/-- Outcome of the pure prefix of `predict` from xg_inference.js, i.e.
everything up to (but not including) the external ONNX call:
either a thrown error, the hard-coded Penalty result, or the exact
arguments handed to the feature builder / inference executor. -/
inductive PredictStep where
  | error (msg : String) : PredictStep
  | penalty (xG x y : ℚ) (chosenModel : String) : PredictStep
  | inference (chosenModel : String) (x y : ℚ)
      (situation shotType : Option String) : PredictStep
deriving DecidableEq, Repr

/-- `predict` from xg_inference.js, up to the external ONNX session call.
The `x`/`y` arguments use the same two-level `Option` convention as the
pitch dimensions (outer: `x == null`, inner: `isNaN(parseFloat(x))`).
A `PredictStep.inference` value carries exactly the data that determines
the downstream `buildFeatureVector` and `session.run` behaviour. -/
def predict (x y : Option (Option ℚ)) (situation shotType : Option String)
    (normalisation : Option Normalisation) : PredictStep :=
  match x, y with
  | none, _ => .error "Missing x or y coordinate."
  | _, none => .error "Missing x or y coordinate."
  | some xv, some yv =>
    match xv, yv with
    | none, _ => .error "x and y must be numeric values."
    | _, none => .error "x and y must be numeric values."
    | some xq, some yq =>
      if !isValidSituation situation then .error "Invalid situation."
      else if !isValidShotType shotType then .error "Invalid shot type."
      else
        match determineModel xq yq situation shotType normalisation with
        | .error e => .error e
        | .ok d =>
          if d.situation = some "Penalty" then
            .penalty (76/100) (895/1000) (1/2) d.chosenModel
          else
            .inference d.chosenModel d.x d.y d.situation d.shotType

/-- Presence of an optional string in the sense of the pipeline: a value
that is neither `null` nor the empty string. -/
def presentStr (o : Option String) : Bool :=
  match o with
  | none => false
  | some s => !(s == "")

/-- The model-selection table of spec section 4.3, as a pure function of
the two presence bits. -/
def selectionTable (sitPresent shtPresent : Bool) : String :=
  match sitPresent, shtPresent with
  | false, false => "basic_model"
  | false, true => "shottype_model"
  | true, false => "situation_model"
  | true, true => "advanced_model"

/-- The chosen-model if-chain of `determineModel` agrees with the
four-row selection table applied to the two presence bits. -/
theorem chooseModelName_eq_selectionTable (situation shotType : Option String) :
    chooseModelName (collapseEmpty situation) (collapseEmpty shotType) =
      selectionTable (presentStr situation) (presentStr shotType) := by
  have beqf : ∀ t : String, ¬t = "" → ((t == "") = false) := fun t ht =>
    beq_eq_false_iff_ne.mpr ht
  rcases situation with _ | s <;> rcases shotType with _ | t
  · rfl
  · by_cases ht : t = ""
    · subst ht; rfl
    · simp [collapseEmpty, chooseModelName, presentStr, selectionTable, ht, beqf t ht]
  · by_cases hs : s = ""
    · subst hs; rfl
    · simp [collapseEmpty, chooseModelName, presentStr, selectionTable, hs, beqf s hs]
  · by_cases hs : s = "" <;> by_cases ht : t = ""
    · subst hs; subst ht; rfl
    · subst hs
      simp [collapseEmpty, chooseModelName, presentStr, selectionTable, ht, beqf t ht]
    · subst ht
      simp [collapseEmpty, chooseModelName, presentStr, selectionTable, hs, beqf s hs]
    · simp [collapseEmpty, chooseModelName, presentStr, selectionTable, hs, ht,
        beqf s hs, beqf t ht]

/-- Characterisation of a successful `determineModel` call: the returned
situation/shotType are the empty-string-collapsed inputs and the chosen
model is given by the selection table on the presence bits. -/
theorem determineModel_ok_shape (x y : ℚ) (situation shotType : Option String)
    (n : Option Normalisation) (d : Determined)
    (h : determineModel x y situation shotType n = .ok d) :
    d.situation = collapseEmpty situation ∧
    d.shotType = collapseEmpty shotType ∧
    d.chosenModel = selectionTable (presentStr situation) (presentStr shotType) := by
  rcases n with _ | n
  · exact absurd h (by simp [determineModel])
  · simp only [determineModel] at h
    by_cases hkey : n.is_normalised = none
    · rw [if_pos hkey] at h
      exact absurd h (by simp)
    · rw [if_neg hkey] at h
      rcases hs : normaliseStep x y n with e | ⟨x2, y2⟩ <;> simp only [hs] at h
      · exact absurd h (by simp)
      · split at h
        · exact absurd h (by simp)
        · rw [Except.ok.injEq] at h
          subst h
          exact ⟨rfl, rfl, chooseModelName_eq_selectionTable situation shotType⟩

/-- If the config has its key but normalisation of the coordinates fails,
`determineModel` surfaces exactly that error. -/
theorem determineModel_error_of_normaliseStep (x y : ℚ)
    (situation shotType : Option String) (n : Normalisation)
    (hkey : n.is_normalised ≠ none) (e : String)
    (hs : normaliseStep x y n = .error e) :
    determineModel x y situation shotType (some n) = .error e := by
  simp only [determineModel]
  rw [if_neg hkey]
  simp only [hs]

/-- If normalisation succeeds but the resulting coordinates are out of
the unit square, `determineModel` fails with the bounds message. -/
theorem determineModel_error_of_out_of_range (x y x2 y2 : ℚ)
    (situation shotType : Option String) (n : Normalisation)
    (hkey : n.is_normalised ≠ none) (hs : normaliseStep x y n = .ok (x2, y2))
    (hout : x2 < 0 ∨ 1 < x2 ∨ y2 < 0 ∨ 1 < y2) :
    determineModel x y situation shotType (some n) =
      .error "Coordinates have been incorrectly claimed as normalised - ensure values are between 0 and 1." := by
  simp only [determineModel]
  rw [if_neg hkey]
  simp only [hs]
  rw [if_pos hout]

/-- A successful `determineModel` call reports exactly the coordinates
produced by the normalisation step. -/
theorem determineModel_ok_coords (x y : ℚ) (situation shotType : Option String)
    (n : Normalisation) (x2 y2 : ℚ) (hkey : n.is_normalised ≠ none)
    (hs : normaliseStep x y n = .ok (x2, y2)) (d : Determined)
    (h : determineModel x y situation shotType (some n) = .ok d) :
    d.x = x2 ∧ d.y = y2 := by
  simp only [determineModel] at h
  rw [if_neg hkey] at h
  simp only [hs] at h
  split at h
  · exact absurd h (by simp)
  · rw [Except.ok.injEq] at h
    subst h
    exact ⟨rfl, rfl⟩

/-- With valid enums, `predict` propagates a `determineModel` error. -/
theorem predict_error_of_determineModel (xq yq : ℚ)
    (situation shotType : Option String) (n : Option Normalisation) (e : String)
    (hS : isValidSituation situation = true)
    (hT : isValidShotType shotType = true)
    (hdm : determineModel xq yq situation shotType n = .error e) :
    predict (some (some xq)) (some (some yq)) situation shotType n = .error e := by
  simp [predict, hS, hT, hdm]

/-- `determineModel` only depends on situation/shotType through their
empty-string collapse. -/
theorem determineModel_collapse_congr (x y : ℚ)
    (sit sit2 sht sht2 : Option String) (n : Option Normalisation)
    (h1 : collapseEmpty sit = collapseEmpty sit2)
    (h2 : collapseEmpty sht = collapseEmpty sht2) :
    determineModel x y sit sht n = determineModel x y sit2 sht2 n := by
  unfold determineModel
  rw [h1, h2]

/-- C1: for every input on which `determineModel` succeeds — any
coordinates, any situation/shotType values, any config — the chosen model
is a pure function of the two presence bits (null/empty = absent):
absent/absent = basic, absent/present = shottype, present/absent =
situation, present/present = advanced, independent of the coordinates. -/
theorem claim_model_selection_pure (x y : ℚ) (situation shotType : Option String)
    (n : Option Normalisation) (d : Determined)
    (h : determineModel x y situation shotType n = .ok d) :
    d.chosenModel = selectionTable (presentStr situation) (presentStr shotType) :=
  (determineModel_ok_shape x y situation shotType n d h).2.2

/-- Witness for C1 at a concrete input: coordinates (0, 1), absent
situation, shot type Head, already-normalised config selects the
shot-type variant. -/
theorem claim_model_selection_pure_witness :
    (⟨"shottype_model", 0, 1, none, some "Head"⟩ : Determined).chosenModel =
      selectionTable (presentStr none) (presentStr (some "Head")) :=
  claim_model_selection_pure 0 1 none (some "Head")
    (some { is_normalised := some (JsPrim.bool true) })
    ⟨"shottype_model", 0, 1, none, some "Head"⟩ (by decide)

/-- C2: a prediction request with situation Penalty never reaches the
feature builder / inference executor: the pipeline either rejects the
input during validation or returns the hard-coded constant — probability
76/100 at the canonical penalty-spot coordinate (895/1000, 1/2) —
regardless of shotType and of the actual coordinates. -/
theorem claim_penalty_hardcoded (x y : ℚ) (shotType : Option String)
    (n : Option Normalisation) :
    ((∃ e, predict (some (some x)) (some (some y)) (some "Penalty") shotType n =
        .error e) ∨
      predict (some (some x)) (some (some y)) (some "Penalty") shotType n =
        .penalty (76/100) (895/1000) (1/2)
          (selectionTable true (presentStr shotType))) ∧
    ∀ m nx ny s t,
      predict (some (some x)) (some (some y)) (some "Penalty") shotType n ≠
        .inference m nx ny s t := by
  have hval : isValidSituation (some "Penalty") = true := rfl
  by_cases hsv : isValidShotType shotType = true
  · rcases hdm : determineModel x y (some "Penalty") shotType n with e | d
    · constructor
      · exact Or.inl ⟨e, by simp [predict, hval, hsv, hdm]⟩
      · intro m nx ny s t
        simp [predict, hval, hsv, hdm]
    · obtain ⟨hsit, _, hmodel⟩ := determineModel_ok_shape _ _ _ _ _ _ hdm
      have hsit2 : d.situation = some "Penalty" := by rw [hsit]; rfl
      constructor
      · exact Or.inr (by simp [predict, hval, hsv, hdm, hsit2, hmodel]; rfl)
      · intro m nx ny s t
        simp [predict, hval, hsv, hdm, hsit2]
  · constructor
    · refine Or.inl ⟨"Invalid shot type.", ?_⟩
      simp [predict, hval]
      simp [Bool.not_eq_true] at hsv
      simp [hsv]
    · intro m nx ny s t
      simp [Bool.not_eq_true] at hsv
      simp [predict, hval, hsv]

/-- Witness for C2 (its statement is hypothesis-free up to universally
quantified data, but we record a concrete application): input
(10, -3) with an already-normalised config and shot type RightFoot. -/
theorem claim_penalty_hardcoded_witness :
    ((∃ e, predict (some (some (10:ℚ))) (some (some (-3:ℚ))) (some "Penalty")
        (some "RightFoot") (some { is_normalised := some (JsPrim.bool true) }) =
        .error e) ∨
      predict (some (some (10:ℚ))) (some (some (-3:ℚ))) (some "Penalty")
        (some "RightFoot") (some { is_normalised := some (JsPrim.bool true) }) =
        .penalty (76/100) (895/1000) (1/2)
          (selectionTable true (presentStr (some "RightFoot")))) ∧
    ∀ m nx ny s t,
      predict (some (some (10:ℚ))) (some (some (-3:ℚ))) (some "Penalty")
        (some "RightFoot") (some { is_normalised := some (JsPrim.bool true) }) ≠
        .inference m nx ny s t :=
  claim_penalty_hardcoded 10 (-3) (some "RightFoot")
    (some { is_normalised := some (JsPrim.bool true) })

/-- C5: with `is_normalised = false`, a missing, non-numeric or
non-positive pitch dimension is a validation error; with both dimensions
positive the normalised coordinates are exactly x / length and y / width;
in particular raw (94.5, 34.0) with length 105 and width 68 normalises to
(0.9, 0.5) and selects the basic model. -/
theorem claim_not_normalised_branch (x y w l : ℚ)
    (situation shotType : Option String) (mw ml : Option (Option ℚ))
    (hbad : mw = none ∨ ml = none ∨ mw = some none ∨ ml = some none ∨
      (∃ w0, mw = some (some w0) ∧ w0 ≤ 0) ∨ (∃ l0, ml = some (some l0) ∧ l0 ≤ 0))
    (hw : 0 < w) (hl : 0 < l) :
    (∃ e, determineModel x y situation shotType
        (some ⟨some (JsPrim.bool false), mw, ml⟩) = .error e) ∧
    (∀ d, determineModel x y situation shotType
        (some ⟨some (JsPrim.bool false), some (some w), some (some l)⟩) = .ok d →
      d.x = x / l ∧ d.y = y / w) ∧
    determineModel (189/2) 34 none none
        (some ⟨some (JsPrim.bool false), some (some 68), some (some 105)⟩) =
      .ok ⟨"basic_model", 9/10, 1/2, none, none⟩ := by
  refine ⟨?_, ?_, ?_⟩
  · have hkey : (⟨some (JsPrim.bool false), mw, ml⟩ : Normalisation).is_normalised ≠ none := by
      simp
    have hstep : ∃ e, normaliseStep x y ⟨some (JsPrim.bool false), mw, ml⟩ = .error e := by
      rcases hbad with h | h | h | h | ⟨w0, hmw, hw0⟩ | ⟨l0, hml, hl0⟩
      · subst h
        rcases ml with _ | ml2
        · exact ⟨_, rfl⟩
        · exact ⟨_, rfl⟩
      · subst h
        rcases mw with _ | mw2
        · exact ⟨_, rfl⟩
        · exact ⟨_, rfl⟩
      · subst h
        rcases ml with _ | ml2
        · exact ⟨_, rfl⟩
        · rcases ml2 with _ | l0 <;> exact ⟨_, rfl⟩
      · subst h
        rcases mw with _ | mw2
        · exact ⟨_, rfl⟩
        · rcases mw2 with _ | w0 <;> exact ⟨_, rfl⟩
      · subst hmw
        rcases ml with _ | ml2
        · exact ⟨_, rfl⟩
        · rcases ml2 with _ | l0
          · exact ⟨_, rfl⟩
          · have h0 : normaliseStep x y
                ⟨some (JsPrim.bool false), some (some w0), some (some l0)⟩ =
                if w0 ≤ 0 ∨ l0 ≤ 0 then
                  Except.error "The maximum width and length of the pitch cannot be a negative value."
                else Except.ok (x / l0, y / w0) := rfl
            exact ⟨"The maximum width and length of the pitch cannot be a negative value.",
              by rw [h0, if_pos (Or.inl hw0)]⟩
      · subst hml
        rcases mw with _ | mw2
        · exact ⟨_, rfl⟩
        · rcases mw2 with _ | w0
          · exact ⟨_, rfl⟩
          · have h0 : normaliseStep x y
                ⟨some (JsPrim.bool false), some (some w0), some (some l0)⟩ =
                if w0 ≤ 0 ∨ l0 ≤ 0 then
                  Except.error "The maximum width and length of the pitch cannot be a negative value."
                else Except.ok (x / l0, y / w0) := rfl
            exact ⟨"The maximum width and length of the pitch cannot be a negative value.",
              by rw [h0, if_pos (Or.inr hl0)]⟩
    obtain ⟨e, he⟩ := hstep
    exact ⟨e, determineModel_error_of_normaliseStep x y situation shotType _ hkey e he⟩
  · intro d hd
    have hkey : (⟨some (JsPrim.bool false), some (some w), some (some l)⟩ :
        Normalisation).is_normalised ≠ none := by simp
    have h0 : normaliseStep x y
        ⟨some (JsPrim.bool false), some (some w), some (some l)⟩ =
        if w ≤ 0 ∨ l ≤ 0 then
          Except.error "The maximum width and length of the pitch cannot be a negative value."
        else Except.ok (x / l, y / w) := rfl
    have hstep : normaliseStep x y
        ⟨some (JsPrim.bool false), some (some w), some (some l)⟩ = .ok (x / l, y / w) := by
      rw [h0, if_neg (not_or.mpr ⟨not_le.mpr hw, not_le.mpr hl⟩)]
    exact determineModel_ok_coords x y situation shotType _ (x / l) (y / w) hkey hstep d hd
  · have hkey : (⟨some (JsPrim.bool false), some (some 68), some (some 105)⟩ :
        Normalisation).is_normalised ≠ none := by simp
    have h0 : normaliseStep (189/2) 34
        (⟨some (JsPrim.bool false), some (some 68), some (some 105)⟩ : Normalisation) =
        if (68:ℚ) ≤ 0 ∨ (105:ℚ) ≤ 0 then
          Except.error "The maximum width and length of the pitch cannot be a negative value."
        else Except.ok ((189:ℚ)/2 / 105, (34:ℚ) / 68) := rfl
    have hstep : normaliseStep (189/2) 34
        (⟨some (JsPrim.bool false), some (some 68), some (some 105)⟩ : Normalisation) =
        .ok ((189:ℚ)/2 / 105, (34:ℚ) / 68) := by
      rw [h0, if_neg (by norm_num)]
    simp only [determineModel]
    rw [if_neg hkey]
    simp only [hstep]
    rw [if_neg (by norm_num)]
    have hx : (189:ℚ)/2 / 105 = 9/10 := by norm_num
    have hy : (34:ℚ) / 68 = 1/2 := by norm_num
    rw [hx, hy]
    rfl

/-- Witness for C5: missing width (mw = none), dimensions 68 x 105. -/
theorem claim_not_normalised_branch_witness :
    (∃ e, determineModel 20 30 none none
        (some ⟨some (JsPrim.bool false), none, some (some 105)⟩) = .error e) ∧
    (∀ d, determineModel 20 30 none none
        (some ⟨some (JsPrim.bool false), some (some 68), some (some 105)⟩) = .ok d →
      d.x = 20 / 105 ∧ d.y = 30 / 68) ∧
    determineModel (189/2) 34 none none
        (some ⟨some (JsPrim.bool false), some (some 68), some (some 105)⟩) =
      .ok ⟨"basic_model", 9/10, 1/2, none, none⟩ :=
  claim_not_normalised_branch 20 30 68 105 none none none (some (some 105))
    (Or.inl rfl) (by norm_num) (by norm_num)

/-- C6: in both normalisation branches, a request whose resulting
coordinates fall outside the unit square fails with the bounds
validation error (and therefore never produces a `penalty` or
`inference` step); in particular (1.2, 0.5) with `is_normalised = true`
is rejected. -/
theorem claim_out_of_range_rejected (x y w l : ℚ)
    (situation shotType : Option String) (v : JsPrim) (mw ml : Option (Option ℚ))
    (hS : isValidSituation situation = true)
    (hT : isValidShotType shotType = true)
    (hv : v ≠ JsPrim.bool false)
    (hout : x < 0 ∨ 1 < x ∨ y < 0 ∨ 1 < y)
    (hw : 0 < w) (hl : 0 < l)
    (hout2 : x / l < 0 ∨ 1 < x / l ∨ y / w < 0 ∨ 1 < y / w) :
    predict (some (some x)) (some (some y)) situation shotType
        (some ⟨some v, mw, ml⟩) =
      .error "Coordinates have been incorrectly claimed as normalised - ensure values are between 0 and 1." ∧
    predict (some (some x)) (some (some y)) situation shotType
        (some ⟨some (JsPrim.bool false), some (some w), some (some l)⟩) =
      .error "Coordinates have been incorrectly claimed as normalised - ensure values are between 0 and 1." ∧
    predict (some (some (6/5))) (some (some (1/2))) none none
        (some ⟨some (JsPrim.bool true), none, none⟩) =
      .error "Coordinates have been incorrectly claimed as normalised - ensure values are between 0 and 1." := by
  refine ⟨?_, ?_, ?_⟩
  · have hkey : (⟨some v, mw, ml⟩ : Normalisation).is_normalised ≠ none := by simp
    have hstep : normaliseStep x y ⟨some v, mw, ml⟩ = .ok (x, y) := by
      simp [normaliseStep, hv]
    exact predict_error_of_determineModel x y situation shotType _ _ hS hT
      (determineModel_error_of_out_of_range x y x y situation shotType _ hkey hstep hout)
  · have hkey : (⟨some (JsPrim.bool false), some (some w), some (some l)⟩ :
        Normalisation).is_normalised ≠ none := by simp
    have h0 : normaliseStep x y
        ⟨some (JsPrim.bool false), some (some w), some (some l)⟩ =
        if w ≤ 0 ∨ l ≤ 0 then
          Except.error "The maximum width and length of the pitch cannot be a negative value."
        else Except.ok (x / l, y / w) := rfl
    have hstep : normaliseStep x y
        ⟨some (JsPrim.bool false), some (some w), some (some l)⟩ = .ok (x / l, y / w) := by
      rw [h0, if_neg (not_or.mpr ⟨not_le.mpr hw, not_le.mpr hl⟩)]
    exact predict_error_of_determineModel x y situation shotType _ _ hS hT
      (determineModel_error_of_out_of_range x y (x / l) (y / w) situation shotType _
        hkey hstep hout2)
  · have hkey : (⟨some (JsPrim.bool true), none, none⟩ :
        Normalisation).is_normalised ≠ none := by simp
    have hstep : normaliseStep (6/5) (1/2) ⟨some (JsPrim.bool true), none, none⟩ =
        .ok (6/5, 1/2) := rfl
    exact predict_error_of_determineModel (6/5) (1/2) none none _ _ rfl rfl
      (determineModel_error_of_out_of_range (6/5) (1/2) (6/5) (1/2) none none _
        hkey hstep (by norm_num))

/-- Witness for C6: x = 200 is out of range both as an
already-normalised value and after division by pitch length 105. -/
theorem claim_out_of_range_rejected_witness :
    predict (some (some (200:ℚ))) (some (some (34:ℚ))) none (some "Head")
        (some ⟨some (JsPrim.bool true), none, none⟩) =
      .error "Coordinates have been incorrectly claimed as normalised - ensure values are between 0 and 1." ∧
    predict (some (some (200:ℚ))) (some (some (34:ℚ))) none (some "Head")
        (some ⟨some (JsPrim.bool false), some (some 68), some (some 105)⟩) =
      .error "Coordinates have been incorrectly claimed as normalised - ensure values are between 0 and 1." ∧
    predict (some (some ((6:ℚ)/5))) (some (some ((1:ℚ)/2))) none none
        (some ⟨some (JsPrim.bool true), none, none⟩) =
      .error "Coordinates have been incorrectly claimed as normalised - ensure values are between 0 and 1." :=
  claim_out_of_range_rejected 200 34 68 105 none (some "Head") (JsPrim.bool true)
    none none rfl rfl (by decide) (by norm_num) (by norm_num) (by norm_num) (by norm_num)

/-- C7: the empty string and null are interchangeable for situation and
for shotType: for every coordinate pair (including missing or
non-numeric ones) and every normalisation config, the pipeline outcome
with an empty-string situation (resp. shotType) is identical to the
outcome with a null one. -/
theorem claim_empty_string_equivalence (x y : Option (Option ℚ))
    (situation shotType : Option String) (n : Option Normalisation) :
    predict x y (some "") shotType n = predict x y none shotType n ∧
    predict x y situation (some "") n = predict x y situation none n := by
  constructor
  · rcases x with _ | xv
    · rfl
    rcases y with _ | yv
    · rfl
    rcases xv with _ | xq
    · rfl
    rcases yv with _ | yq
    · rfl
    simp only [predict]
    rw [determineModel_collapse_congr xq yq (some "") none shotType shotType n rfl rfl]
    rfl
  · rcases x with _ | xv
    · rfl
    rcases y with _ | yv
    · rfl
    rcases xv with _ | xq
    · rfl
    rcases yv with _ | yq
    · rfl
    simp only [predict]
    rw [determineModel_collapse_congr xq yq situation situation (some "") none n rfl rfl]
    rfl

/-- C10: the `is_normalised` flag is compared by strict equality with the
boolean false: any other value present under the key — including the
JS-falsy number 0, the string "false", null, or true — skips the
division entirely and treats the coordinates as already normalised, so
the call succeeds exactly when the raw coordinates already lie in the
unit square, even when pitch dimensions are supplied. -/
theorem claim_strict_false_comparison (x y : ℚ)
    (situation shotType : Option String) (v : JsPrim) (mw ml : Option (Option ℚ))
    (hv : v ≠ JsPrim.bool false) :
    determineModel x y situation shotType (some ⟨some v, mw, ml⟩) =
      if x < 0 ∨ 1 < x ∨ y < 0 ∨ 1 < y then
        .error "Coordinates have been incorrectly claimed as normalised - ensure values are between 0 and 1."
      else
        .ok ⟨chooseModelName (collapseEmpty situation) (collapseEmpty shotType),
             x, y, collapseEmpty situation, collapseEmpty shotType⟩ := by
  have hkey : (⟨some v, mw, ml⟩ : Normalisation).is_normalised ≠ none := by simp
  have hstep : normaliseStep x y ⟨some v, mw, ml⟩ = .ok (x, y) := by
    simp [normaliseStep, hv]
  simp only [determineModel]
  rw [if_neg hkey]
  simp only [hstep]

/-- Witness for C10: the JS-falsy number 0 under the key, with pitch
dimensions supplied, still takes the already-normalised path. -/
theorem claim_strict_false_comparison_witness :
    determineModel 0 1 none (some "Head")
        (some ⟨some (JsPrim.num 0), some (some 68), some (some 105)⟩) =
      if (0:ℚ) < 0 ∨ 1 < (0:ℚ) ∨ (1:ℚ) < 0 ∨ 1 < (1:ℚ) then
        .error "Coordinates have been incorrectly claimed as normalised - ensure values are between 0 and 1."
      else
        .ok ⟨chooseModelName (collapseEmpty none) (collapseEmpty (some "Head")),
             0, 1, collapseEmpty none, collapseEmpty (some "Head")⟩ :=
  claim_strict_false_comparison 0 1 none (some "Head") (JsPrim.num 0)
    (some (some 68)) (some (some 105)) (by decide)

/-- State of one in-flight `getSession` call (for a fixed model name).
`start`: the call has not run yet; `loading sid`: the call found the
cache empty and is awaiting `InferenceSession.create` (which will
produce session `sid`); `done sid`: the call returned session `sid`. -/
inductive TaskState where
  | start : TaskState
  | loading (sid : Nat) : TaskState
  | done (sid : Nat) : TaskState
deriving DecidableEq, Repr

/-- Global state of the `getSession` interleaving model for one model
name: the `_sessionCache` entry for that name (`none` = absent), the
per-call states (indexed by call number), a counter producing distinct
session identities, and the number of `InferenceSession.create`
invocations so far. -/
structure SessionSys where
  cache : Option Nat
  tasks : Nat → TaskState
  nextId : Nat
  loads : Nat

/-- One scheduler step of call `i`, mirroring the two atomic segments of
`getSession` (xg_inference.js lines 238-251) separated by its single
`await`: a `start` call runs the synchronous prefix — if
`_sessionCache.has(modelName)` it returns the cached session, otherwise
it starts `InferenceSession.create` (one load) and suspends; a `loading`
call resumes after the `await`, stores its session in the cache and
returns.  Note the source caches the resolved session only, not the
in-flight promise. -/
def sessionStep (s : SessionSys) (i : Nat) : SessionSys :=
  match s.tasks i with
  | TaskState.start =>
    match s.cache with
    | some sid => { s with tasks := Function.update s.tasks i (TaskState.done sid) }
    | none =>
      { s with tasks := Function.update s.tasks i (TaskState.loading s.nextId),
               nextId := s.nextId + 1, loads := s.loads + 1 }
  | TaskState.loading sid =>
    { s with cache := some sid, tasks := Function.update s.tasks i (TaskState.done sid) }
  | TaskState.done _ => s

/-- Run a schedule (a sequence of call indices) from a state. -/
def sessionRun (s : SessionSys) (sched : List Nat) : SessionSys :=
  sched.foldl sessionStep s

/-- Initial state: empty cache, every call still to run, no loads. -/
def initSession : SessionSys :=
  { cache := none, tasks := fun _ => TaskState.start, nextId := 0, loads := 0 }

/-- A schedule that serialises the calls: call 0 runs to completion
(both segments), then each later call runs; no call overlaps the load. -/
def seqSchedule (n : Nat) : List Nat := 0 :: List.range n

/-- Once the cache is populated and no call is suspended mid-load, any
further scheduling leaves the load count and the cache untouched. -/
theorem sessionRun_stable (sched : List Nat) (s : SessionSys) (c : Nat)
    (hc : s.cache = some c) (hnl : ∀ i sid, s.tasks i ≠ TaskState.loading sid) :
    (sessionRun s sched).loads = s.loads ∧ (sessionRun s sched).cache = some c := by
  induction sched generalizing s with
  | nil => exact ⟨rfl, hc⟩
  | cons i rest ih =>
    have hrun : sessionRun s (i :: rest) = sessionRun (sessionStep s i) rest := rfl
    rw [hrun]
    rcases hti : s.tasks i with _ | sid | sid
    · have hstep : sessionStep s i =
          { s with tasks := Function.update s.tasks i (TaskState.done c) } := by
        simp [sessionStep, hti, hc]
      rw [hstep]
      refine ih _ hc ?_
      intro j sid2
      by_cases hj : j = i
      · subst hj; simp [Function.update_apply]
      · simp [Function.update_apply, hj]
        exact hnl j sid2
    · exact absurd hti (by intro h; exact hnl i sid h)
    · have hstep : sessionStep s i = s := by simp [sessionStep, hti]
      rw [hstep]
      exact ih s hc hnl

/-- C4 counterexample: two `getSession` calls for a variant not in the
cache, interleaved so that both run their cache check before either
load completes, trigger two `InferenceSession.create` invocations —
the source caches the resolved session, not the in-flight promise, so
concurrent first requests do not await the same load.  Both calls do
complete, but the load/compile ran twice, refuting the claimed
exactly-one-load de-duplication. -/
theorem claim_cache_dedup_counterexample :
    (sessionRun initSession [0, 1, 0, 1]).loads = 2 ∧
    (sessionRun initSession [0, 1, 0, 1]).tasks 0 = TaskState.done 0 ∧
    (sessionRun initSession [0, 1, 0, 1]).tasks 1 = TaskState.done 1 ∧
    (sessionRun initSession [0, 1, 0, 1]).loads ≠ 1 := by
  decide

/-- C4 (amended): when the requests do not overlap the first load —
call 0 runs to completion before the others start — exactly one
load/compile happens and the cache ends up populated with its session;
every later request is served from the cache without further loads.
Interleaved first requests, by contrast, may each trigger their own
load (see the counterexample). -/
theorem claim_cache_dedup_sequential (n : Nat) (h : 1 ≤ n) :
    (sessionRun initSession (seqSchedule n)).loads = 1 ∧
    (sessionRun initSession (seqSchedule n)).cache = some 0 := by
  obtain ⟨m, rfl⟩ : ∃ m, n = m + 1 := ⟨n - 1, by omega⟩
  have hpeel : sessionRun initSession (seqSchedule (m + 1)) =
      sessionRun
        { cache := some 0,
          tasks := Function.update (Function.update (fun _ => TaskState.start) 0
            (TaskState.loading 0)) 0 (TaskState.done 0),
          nextId := 1, loads := 1 }
        ((List.range m).map Nat.succ) := by
    show sessionRun initSession (0 :: List.range (m + 1)) = _
    rw [List.range_succ_eq_map]
    rfl
  rw [hpeel]
  refine sessionRun_stable _ _ 0 rfl ?_
  intro j sid
  by_cases hj : j = 0
  · subst hj; simp [Function.update_apply]
  · simp [Function.update_apply, hj]

/-- Witness for the amended C4 at three sequential requests. -/
theorem claim_cache_dedup_sequential_witness :
    (sessionRun initSession (seqSchedule 3)).loads = 1 ∧
    (sessionRun initSession (seqSchedule 3)).cache = some 0 :=
  claim_cache_dedup_sequential 3 (by decide)

/-- JavaScript-style list read `arr[i] || 0` (heatmap.js lines 201-204):
an in-bounds element is returned, anything else (negative index,
out-of-bounds, missing) yields 0. -/
def jsGet (l : List ℚ) (i : ℤ) : ℚ :=
  if 0 ≤ i then l.getD i.toNat 0 else 0

/-- JavaScript-style row read `heatmap[i]?.` — a missing row behaves as
an empty row (every element read from it yields 0). -/
def jsGetRow (m : List (List ℚ)) (i : ℤ) : List ℚ :=
  if 0 ≤ i then m.getD i.toNat [] else []

/-- heatmap.js lines 179-180: the cell width is the difference of the
first two coordinates (0.01 when fewer than two exist). -/
def cellSize (coords : List ℚ) : ℚ :=
  if 1 < coords.length then coords.getD 1 0 - coords.getD 0 0 else 1/100

/-- heatmap.js lines 191-192: `xIndex = Math.floor(meterX / cellWidth)`
(and identically `yIndex` from `meterY / cellHeight`). -/
def gridIndex (coords : List ℚ) (v : ℚ) : ℤ :=
  ⌊v / cellSize coords⌋

/-- The per-point sampling computation of `drawHeatmap` (heatmap.js
lines 191-211): locate the cell, bilinearly interpolate across its four
corner values when both right/upper neighbours exist, otherwise fall
back to the nearest stored value. -/
def sampleHeatmap (x_coords y_coords : List ℚ) (heatmap : List (List ℚ))
    (mx my : ℚ) : ℚ :=
  let xIndex := gridIndex x_coords mx
  let yIndex := gridIndex y_coords my
  if xIndex < (x_coords.length : ℤ) - 1 ∧ yIndex < (y_coords.length : ℤ) - 1 ∧
      1 < y_coords.length then
    let x1 := jsGet x_coords xIndex
    let x2 := jsGet x_coords (xIndex + 1)
    let y1 := jsGet y_coords yIndex
    let y2 := jsGet y_coords (yIndex + 1)
    let xWeight := (mx - x1) / (x2 - x1)
    let yWeight := (my - y1) / (y2 - y1)
    let v00 := jsGet (jsGetRow heatmap yIndex) xIndex
    let v10 := jsGet (jsGetRow heatmap yIndex) (xIndex + 1)
    let v01 := jsGet (jsGetRow heatmap (yIndex + 1)) xIndex
    let v11 := jsGet (jsGetRow heatmap (yIndex + 1)) (xIndex + 1)
    let top := v00 * (1 - xWeight) + v10 * xWeight
    let bottom := v01 * (1 - xWeight) + v11 * xWeight
    top * (1 - yWeight) + bottom * yWeight
  else
    jsGet (jsGetRow heatmap yIndex) xIndex

/-- A uniform grid starting at the origin: coordinates 0, w, 2w, …. -/
def uniformGrid (n : Nat) (w : ℚ) : List ℚ :=
  (List.range n).map (fun k : ℕ => (k : ℚ) * w)

/-- Length of a uniform grid. -/
theorem uniformGrid_length (n : Nat) (w : ℚ) : (uniformGrid n w).length = n := by
  rw [uniformGrid, List.length_map, List.length_range]

/-- Reading a uniform grid in bounds. -/
theorem uniformGrid_getD (n : Nat) (w : ℚ) (k : Nat) (h : k < n) :
    (uniformGrid n w).getD k 0 = (k : ℚ) * w := by
  rw [uniformGrid, List.getD_eq_getElem?_getD, List.getElem?_map, List.getElem?_range h]
  rfl

/-- For at least two points, the cell size of a zero-based uniform grid
is its spacing. -/
theorem cellSize_uniform (n : Nat) (w : ℚ) (h : 1 < n) :
    cellSize (uniformGrid n w) = w := by
  rw [cellSize, if_pos (by simpa [uniformGrid_length] using h),
    uniformGrid_getD n w 1 h, uniformGrid_getD n w 0 (by omega)]
  push_cast
  ring

/-- On a zero-based uniform grid with at least two points the computed
index is the floor of the position divided by the spacing. -/
theorem gridIndex_uniform (n : Nat) (w : ℚ) (v : ℚ) (h : 1 < n) :
    gridIndex (uniformGrid n w) v = ⌊v / w⌋ := by
  rw [gridIndex, cellSize_uniform n w h]

/-- `jsGet` at a nonnegative index is a plain in-bounds-or-default read. -/
theorem jsGet_natCast (l : List ℚ) (k : Nat) : jsGet l (k : ℤ) = l.getD k 0 := by
  rw [jsGet, if_pos (Int.natCast_nonneg k), Int.toNat_natCast]

/-- `jsGetRow` at a nonnegative index is a plain in-bounds-or-default read. -/
theorem jsGetRow_natCast (m : List (List ℚ)) (k : Nat) :
    jsGetRow m (k : ℤ) = m.getD k [] := by
  rw [jsGetRow, if_pos (Int.natCast_nonneg k), Int.toNat_natCast]

/-- Single-axis correctness of the floor-based cell location on a
zero-based uniform grid: the point lies between the located coordinate
and its successor. -/
theorem gridIndex_uniform_correct (n : Nat) (w : ℚ) (v : ℚ)
    (hw : 0 < w) (hv : 0 ≤ v) (hi : gridIndex (uniformGrid n w) v + 1 < n) :
    (uniformGrid n w).getD (gridIndex (uniformGrid n w) v).toNat 0 ≤ v ∧
    v < (uniformGrid n w).getD ((gridIndex (uniformGrid n w) v).toNat + 1) 0 := by
  have hn : 1 < n := by
    by_contra hn
    push_neg at hn
    have h0 : (0 : ℤ) ≤ gridIndex (uniformGrid n w) v := by
      rw [gridIndex]
      refine Int.floor_nonneg.mpr (div_nonneg hv ?_)
      rcases lt_or_ge 1 n with h1 | h1
      · rw [cellSize_uniform n w h1]; exact hw.le
      · rw [cellSize, if_neg (by rw [uniformGrid_length]; omega)]; norm_num
    omega
  rw [gridIndex_uniform n w v hn] at hi ⊢
  have hfl : (0 : ℤ) ≤ ⌊v / w⌋ := Int.floor_nonneg.mpr (div_nonneg hv hw.le)
  set i := ⌊v / w⌋.toNat with hidef
  have hicast : (⌊v / w⌋ : ℤ) = (i : ℤ) := by rw [hidef, Int.toNat_of_nonneg hfl]
  have hisucc : i + 1 < n := by omega
  have hibound : i < n := by omega
  rw [uniformGrid_getD n w i hibound, uniformGrid_getD n w (i + 1) hisucc]
  have hfloorle : ((i : ℚ)) ≤ v / w := by
    have := Int.floor_le (v / w)
    rwa [hicast] at this
  have hfloorlt : v / w < (i : ℚ) + 1 := by
    have := Int.lt_floor_add_one (v / w)
    rwa [hicast] at this
  constructor
  · calc (i : ℚ) * w ≤ (v / w) * w := by
          exact mul_le_mul_of_nonneg_right hfloorle hw.le
      _ = v := div_mul_cancel₀ v (ne_of_gt hw)
  · calc v = (v / w) * w := (div_mul_cancel₀ v (ne_of_gt hw)).symm
      _ < ((i : ℚ) + 1) * w := by
          exact mul_lt_mul_of_pos_right hfloorlt hw
      _ = ((i + 1 : ℕ) : ℚ) * w := by push_cast; ring

/-- C8 counterexample: the grid [0, 2, 3, 4] is strictly ascending and
the point 3.5 is in range, but the computed index
`floor(3.5 / (coords[1] - coords[0])) = 1` does not identify the
containing cell: both neighbour coordinates exist, yet
coords[1] = 2 ≤ 3.5 < coords[2] = 3 fails — the code assumes a uniform
spacing equal to the first gap, which a merely ascending grid violates. -/
theorem claim_cell_location_counterexample :
    List.Chain' (fun a b : ℚ => a < b) [0, 2, 3, 4] ∧
    (0 : ℚ) ≤ 7/2 ∧ (7/2 : ℚ) ≤ 4 ∧
    gridIndex [0, 2, 3, 4] (7/2) = 1 ∧
    ((1 : ℤ) + 1) < (([0, 2, 3, 4] : List ℚ).length : ℤ) ∧
    ¬(([0, 2, 3, 4] : List ℚ).getD 1 0 ≤ (7/2 : ℚ) ∧
      (7/2 : ℚ) < ([0, 2, 3, 4] : List ℚ).getD 2 0) := by
  refine ⟨?_, by norm_num, by norm_num, ?_, by norm_num, ?_⟩
  · norm_num
  · show ⌊(7/2 : ℚ) / cellSize [0, 2, 3, 4]⌋ = 1
    have : cellSize [0, 2, 3, 4] = 2 := by
      rw [cellSize, if_pos (by norm_num)]
      norm_num [List.getD_cons_zero, List.getD_cons_succ]
    rw [this]
    norm_num
  · intro hcon
    have := hcon.2
    rw [List.getD_cons_succ, List.getD_cons_succ, List.getD_cons_zero] at this
    norm_num at this

/-- C8 (amended): on zero-based uniform grids — the shape actually
produced for the heatmap, where each coordinate equals its index times
the spacing — the computed xIndex and yIndex do identify the containing
cell whenever the successor coordinates exist: coords[index] ≤ point <
coords[index + 1] on each axis.  For a merely ascending (non-uniform or
offset) grid the located cell can be wrong (see the counterexample). -/
theorem claim_cell_location_uniform (nx ny : Nat) (wx wy : ℚ) (mx my : ℚ)
    (hwx : 0 < wx) (hwy : 0 < wy) (hmx : 0 ≤ mx) (hmy : 0 ≤ my)
    (hix : gridIndex (uniformGrid nx wx) mx + 1 < nx)
    (hiy : gridIndex (uniformGrid ny wy) my + 1 < ny) :
    ((uniformGrid nx wx).getD (gridIndex (uniformGrid nx wx) mx).toNat 0 ≤ mx ∧
      mx < (uniformGrid nx wx).getD ((gridIndex (uniformGrid nx wx) mx).toNat + 1) 0) ∧
    ((uniformGrid ny wy).getD (gridIndex (uniformGrid ny wy) my).toNat 0 ≤ my ∧
      my < (uniformGrid ny wy).getD ((gridIndex (uniformGrid ny wy) my).toNat + 1) 0) :=
  ⟨gridIndex_uniform_correct nx wx mx hwx hmx hix,
   gridIndex_uniform_correct ny wy my hwy hmy hiy⟩

/-- Witness for the amended C8: a 4-point unit-spaced grid on each axis
and the point (2.5, 0.5), located in cells 2 and 0 respectively. -/
theorem claim_cell_location_uniform_witness :
    ((uniformGrid 4 1).getD (gridIndex (uniformGrid 4 1) (5/2)).toNat 0 ≤ (5/2 : ℚ) ∧
      (5/2 : ℚ) < (uniformGrid 4 1).getD ((gridIndex (uniformGrid 4 1) (5/2)).toNat + 1) 0) ∧
    ((uniformGrid 4 1).getD (gridIndex (uniformGrid 4 1) (1/2)).toNat 0 ≤ (1/2 : ℚ) ∧
      (1/2 : ℚ) < (uniformGrid 4 1).getD ((gridIndex (uniformGrid 4 1) (1/2)).toNat + 1) 0) :=
  claim_cell_location_uniform 4 4 1 1 (5/2) (1/2) (by norm_num) (by norm_num)
    (by norm_num) (by norm_num)
    (by rw [gridIndex_uniform 4 1 (5/2) (by norm_num)]; norm_num)
    (by rw [gridIndex_uniform 4 1 (1/2) (by norm_num)]; norm_num)

/-- C9 counterexample: the grid [2, 3, 4, 5] on both axes is uniform
(every gap is 1), and (3, 3) is the interior grid vertex with indices
(1, 1) whose stored value is 5; but the sampler — whose
`floor(position / gap)` indexing ignores the grid origin — computes
index (3, 3), misses the interpolation branch, and returns the
unrelated corner value 9 instead of the stored 5. -/
theorem claim_bilinear_exact_counterexample :
    (([2, 3, 4, 5] : List ℚ).getD 1 0 - ([2, 3, 4, 5] : List ℚ).getD 0 0 = 1 ∧
     ([2, 3, 4, 5] : List ℚ).getD 2 0 - ([2, 3, 4, 5] : List ℚ).getD 1 0 = 1 ∧
     ([2, 3, 4, 5] : List ℚ).getD 3 0 - ([2, 3, 4, 5] : List ℚ).getD 2 0 = 1) ∧
    ([2, 3, 4, 5] : List ℚ).getD 1 0 = 3 ∧
    ((([[0, 0, 0, 0], [0, 5, 0, 0], [0, 0, 0, 0], [0, 0, 0, 9]] :
        List (List ℚ)).getD 1 []).getD 1 0 = 5) ∧
    sampleHeatmap [2, 3, 4, 5] [2, 3, 4, 5]
      [[0, 0, 0, 0], [0, 5, 0, 0], [0, 0, 0, 0], [0, 0, 0, 9]] 3 3 = 9 ∧
    (9 : ℚ) ≠ 5 := by
  have hcs : cellSize [2, 3, 4, 5] = 1 := by
    rw [cellSize, if_pos (by norm_num)]
    norm_num [List.getD_cons_zero, List.getD_cons_succ]
  have hgi : gridIndex [2, 3, 4, 5] 3 = 3 := by
    rw [gridIndex, hcs]
    norm_num
  refine ⟨⟨by norm_num [List.getD_cons_zero, List.getD_cons_succ],
      by norm_num [List.getD_cons_zero, List.getD_cons_succ],
      by norm_num [List.getD_cons_zero, List.getD_cons_succ]⟩,
    by norm_num [List.getD_cons_zero, List.getD_cons_succ],
    by norm_num [List.getD_cons_zero, List.getD_cons_succ], ?_, by norm_num⟩
  simp only [sampleHeatmap, hgi]
  rw [if_neg (by intro hcon; have := hcon.1; norm_num at this)]
  norm_num [jsGet, jsGetRow, List.getD_cons_zero, List.getD_cons_succ]
  rfl

/-- C9 (amended): on zero-based uniform grids — coordinates equal to
index times spacing, the shape the heatmap endpoint actually serves —
sampling exactly at an interior grid vertex (i·w, j·h) returns the
stored value heatmap[j][i] unchanged, for every value matrix; and at
the midpoint of the unit cell with corner values 0.0, 0.2, 0.4, 0.6 the
bilinear interpolation yields exactly 0.3.  On a uniform grid that does
not start at 0 the vertex property fails (see the counterexample). -/
theorem claim_bilinear_exact_zero_based (n m : Nat) (w h : ℚ)
    (H : List (List ℚ)) (i j : Nat)
    (hw : 0 < w) (hh : 0 < h) (hi : i + 1 < n) (hj : j + 1 < m) :
    sampleHeatmap (uniformGrid n w) (uniformGrid m h) H
        ((i : ℚ) * w) ((j : ℚ) * h) = (H.getD j []).getD i 0 ∧
    sampleHeatmap (uniformGrid 2 1) (uniformGrid 2 1)
        [[0, 2/10], [4/10, 6/10]] (1/2) (1/2) = 3/10 := by
  constructor
  · have hn : 1 < n := by omega
    have hm : 1 < m := by omega
    have hgx : gridIndex (uniformGrid n w) ((i : ℚ) * w) = (i : ℤ) := by
      rw [gridIndex_uniform n w _ hn, mul_div_cancel_right₀ _ (ne_of_gt hw),
        Int.floor_natCast]
    have hgy : gridIndex (uniformGrid m h) ((j : ℚ) * h) = (j : ℤ) := by
      rw [gridIndex_uniform m h _ hm, mul_div_cancel_right₀ _ (ne_of_gt hh),
        Int.floor_natCast]
    have hcast1 : ((i : ℤ) + 1) = ((i + 1 : ℕ) : ℤ) := by push_cast; ring
    have hcast2 : ((j : ℤ) + 1) = ((j + 1 : ℕ) : ℤ) := by push_cast; ring
    simp only [sampleHeatmap, hgx, hgy]
    rw [if_pos ⟨by rw [uniformGrid_length]; omega,
      by rw [uniformGrid_length]; omega,
      by rw [uniformGrid_length]; omega⟩]
    rw [hcast1, hcast2]
    simp only [jsGet_natCast, jsGetRow_natCast]
    rw [uniformGrid_getD n w i (by omega), uniformGrid_getD n w (i + 1) hi,
      uniformGrid_getD m h j (by omega), uniformGrid_getD m h (j + 1) hj,
      sub_self, sub_self, zero_div, zero_div]
    ring
  · have hrange : List.range 2 = [0, 1] := rfl
    have hg : uniformGrid 2 1 = [0, 1] := by
      rw [uniformGrid, hrange]
      norm_num
    have hcs : cellSize ([0, 1] : List ℚ) = 1 := by
      rw [cellSize, if_pos (by norm_num)]
      norm_num [List.getD_cons_zero, List.getD_cons_succ]
    have hgi : gridIndex ([0, 1] : List ℚ) (1/2) = 0 := by
      rw [gridIndex, hcs]
      norm_num
    simp only [sampleHeatmap, hg, hgi]
    rw [if_pos ⟨by norm_num, by norm_num, by norm_num⟩]
    norm_num [jsGet, jsGetRow, List.getD_cons_zero, List.getD_cons_succ]

/-- Witness for the amended C9: vertex (1·1, 1·1) of a 3-by-3 unit grid
with stored value 7. -/
theorem claim_bilinear_exact_zero_based_witness :
    sampleHeatmap (uniformGrid 3 1) (uniformGrid 3 1)
        [[0, 0, 0], [0, 7, 0], [0, 0, 0]] ((1 : ℚ) * 1) ((1 : ℚ) * 1) =
      (([[0, 0, 0], [0, 7, 0], [0, 0, 0]] : List (List ℚ)).getD 1 []).getD 1 0 ∧
    sampleHeatmap (uniformGrid 2 1) (uniformGrid 2 1)
        [[0, 2/10], [4/10, 6/10]] (1/2) (1/2) = 3/10 := by
  have := claim_bilinear_exact_zero_based 3 3 1 1
    [[0, 0, 0], [0, 7, 0], [0, 0, 0]] 1 1 (by norm_num) (by norm_num)
    (by omega) (by omega)
  simpa using this

open scoped Classical

/-- `GOAL_CENTER` from xg_inference.js. -/
def GOAL_CENTER : ℝ × ℝ := (1, 0.5)

/-- `GOAL_POSTS` from xg_inference.js: near and far post. -/
def GOAL_POSTS : (ℝ × ℝ) × (ℝ × ℝ) := ((1, 0.45), (1, 0.55))

/-- xg_inference.js lines 180-184: Euclidean distance to the goal
centre (`Math.pow(·, 2)` is modelled by `^ 2`). -/
noncomputable def distanceToGoal (x y : ℝ) : ℝ :=
  Real.sqrt ((x - GOAL_CENTER.1) ^ 2 + (y - GOAL_CENTER.2) ^ 2)

/-- xg_inference.js lines 187-202: angle (radians) between the vectors
from the shot to the two goalposts, via acos of the clamped normalised
dot product; defined as 0 when either vector has zero magnitude. -/
noncomputable def angleToGoal (x y : ℝ) : ℝ :=
  let v1x := GOAL_POSTS.1.1 - x
  let v1y := GOAL_POSTS.1.2 - y
  let v2x := GOAL_POSTS.2.1 - x
  let v2y := GOAL_POSTS.2.2 - y
  let dot := v1x * v2x + v1y * v2y
  let mag1 := Real.sqrt (v1x * v1x + v1y * v1y)
  let mag2 := Real.sqrt (v2x * v2x + v2y * v2y)
  if mag1 = 0 ∨ mag2 = 0 then 0
  else Real.arccos (max (-1) (min 1 (dot / (mag1 * mag2))))

/-- `MODEL_FEATURES` from xg_inference.js: the ordered feature schema of
each model variant (an unknown key reads as an empty schema, like a JS
object miss). -/
def MODEL_FEATURES (name : String) : List String :=
  if name = "basic_model" then
    ["X", "Y", "distance_to_goal", "angle_to_goal"]
  else if name = "shottype_model" then
    ["X", "Y", "distance_to_goal", "angle_to_goal",
     "shotType_Head", "shotType_LeftFoot", "shotType_OtherBodyPart", "shotType_RightFoot"]
  else if name = "situation_model" then
    ["X", "Y", "distance_to_goal", "angle_to_goal",
     "situation_DirectFreekick", "situation_FromCorner", "situation_OpenPlay",
     "situation_Penalty", "situation_SetPiece"]
  else if name = "advanced_model" then
    ["X", "Y", "distance_to_goal", "angle_to_goal",
     "situation_DirectFreekick", "situation_FromCorner", "situation_OpenPlay",
     "situation_Penalty", "situation_SetPiece",
     "shotType_Head", "shotType_LeftFoot", "shotType_OtherBodyPart", "shotType_RightFoot",
     "interaction_DirectFreekick_LeftFoot", "interaction_DirectFreekick_RightFoot",
     "interaction_FromCorner_Head", "interaction_FromCorner_LeftFoot",
     "interaction_FromCorner_OtherBodyPart", "interaction_FromCorner_RightFoot",
     "interaction_OpenPlay_Head", "interaction_OpenPlay_LeftFoot",
     "interaction_OpenPlay_OtherBodyPart", "interaction_OpenPlay_RightFoot",
     "interaction_Penalty_LeftFoot", "interaction_Penalty_RightFoot",
     "interaction_SetPiece_Head", "interaction_SetPiece_LeftFoot",
     "interaction_SetPiece_OtherBodyPart", "interaction_SetPiece_RightFoot"]
  else []

/-- The JS mutation `if (key in featureMap) featureMap[key] = v`, where
the object keys are exactly the schema entries. -/
noncomputable def updateIfPresent (features : List String) (m : String → ℝ)
    (key : String) (v : ℝ) : String → ℝ :=
  if key ∈ features then Function.update m key v else m

/-- The feature map built by `buildFeatureVector` (xg_inference.js lines
171-221), as a function from column name to value: every column starts
at 0.0, then X, Y, distance, angle, the one-hot situation and shot-type
columns and the interaction column are written in source order (each
only if present in the schema). -/
noncomputable def featureValue (x y : ℝ) (situation shotType : Option String)
    (features : List String) : String → ℝ :=
  let m0 : String → ℝ := fun _ => 0
  let m1 := updateIfPresent features m0 "X" x
  let m2 := updateIfPresent features m1 "Y" y
  let m3 := updateIfPresent features m2 "distance_to_goal" (distanceToGoal x y)
  let m4 := updateIfPresent features m3 "angle_to_goal" (angleToGoal x y)
  let m5 := match situation with
    | none => m4
    | some s => updateIfPresent features m4 ("situation_" ++ s) 1
  let m6 := match shotType with
    | none => m5
    | some t => updateIfPresent features m5 ("shotType_" ++ t) 1
  match situation, shotType with
  | some s, some t => updateIfPresent features m6 ("interaction_" ++ s ++ "_" ++ t) 1
  | _, _ => m6

/-- `buildFeatureVector` (xg_inference.js line 224): the feature map read
back in the exact schema order. -/
noncomputable def buildFeatureVector (x y : ℝ) (situation shotType : Option String)
    (features : List String) : List ℝ :=
  features.map (featureValue x y situation shotType features)

/-- Reference definition from spec section 4.4: Euclidean distance from
(x, y) to the goal centre (1.0, 0.5). -/
noncomputable def specDistance (x y : ℝ) : ℝ :=
  Real.sqrt ((x - 1) ^ 2 + (y - 0.5) ^ 2)

/-- Reference definition from spec section 4.4: the angle in radians
between the vector from (x, y) to the near goalpost (1.0, 0.45) and the
vector to the far goalpost (1.0, 0.55), computed via
acos(clamp(dot/(|v1||v2|), -1, 1)), defined as 0 when either vector has
zero magnitude. -/
noncomputable def specAngle (x y : ℝ) : ℝ :=
  let v1 : ℝ × ℝ := (1 - x, 0.45 - y)
  let v2 : ℝ × ℝ := (1 - x, 0.55 - y)
  let mag1 := Real.sqrt (v1.1 ^ 2 + v1.2 ^ 2)
  let mag2 := Real.sqrt (v2.1 ^ 2 + v2.2 ^ 2)
  if mag1 = 0 ∨ mag2 = 0 then 0
  else Real.arccos (max (-1) (min 1 ((v1.1 * v2.1 + v1.2 * v2.2) / (mag1 * mag2))))

/-- Reference definition of one feature column, written from the spec's
words (section 4.4): `X`/`Y` are the coordinates, `distance_to_goal` and
`angle_to_goal` the derived geometry, the one-hot situation/shot-type
columns are 1.0 exactly when the corresponding input is present and
names the column, the interaction column is 1.0 only when both inputs
are present, and every other column is 0.0. -/
noncomputable def specFeature (x y : ℝ) (situation shotType : Option String)
    (f : String) : ℝ :=
  if f = "X" then x
  else if f = "Y" then y
  else if f = "distance_to_goal" then specDistance x y
  else if f = "angle_to_goal" then specAngle x y
  else if ∃ s, situation = some s ∧ f = "situation_" ++ s then 1
  else if ∃ t, shotType = some t ∧ f = "shotType_" ++ t then 1
  else if ∃ s t, situation = some s ∧ shotType = some t ∧
      f = "interaction_" ++ s ++ "_" ++ t then 1
  else 0

/-- The source distance computation equals the reference formula. -/
theorem distanceToGoal_eq_spec (x y : ℝ) : distanceToGoal x y = specDistance x y := by
  rw [distanceToGoal, specDistance, GOAL_CENTER]

/-- The source angle computation equals the reference formula. -/
theorem angleToGoal_eq_spec (x y : ℝ) : angleToGoal x y = specAngle x y := by
  rw [angleToGoal, specAngle, GOAL_POSTS]
  norm_num [pow_two]

/-- Two appended strings differ when neither constant prefix is a
prefix of the other. -/
theorem ne_of_not_prefix (p q a b : String)
    (h1 : ¬ p.data <+: q.data) (h2 : ¬ q.data <+: p.data) : p ++ a ≠ q ++ b := by
  intro h
  have hdata : p.data ++ a.data = q.data ++ b.data := by
    have := congrArg String.data h
    simpa [String.data_append] using this
  rcases List.append_eq_append_iff.mp hdata with ⟨r, hr, _⟩ | ⟨r, hr, _⟩
  · exact h1 ⟨r, hr.symm⟩
  · exact h2 ⟨r, hr.symm⟩

/-- A parametric key with a constant prefix differs from a fixed name
when neither is a prefix of the other. -/
theorem append_ne_fixed (p a q : String)
    (h1 : ¬ p.data <+: q.data) (h2 : ¬ q.data <+: p.data) : p ++ a ≠ q := by
  intro h
  exact ne_of_not_prefix p q a "" h1 h2 (by rw [h, String.append_empty])

/-- Reading an `updateIfPresent` map at a different key sees through the
update. -/
theorem updateIfPresent_apply_ne (features : List String) (m : String → ℝ)
    (key : String) (v : ℝ) (f : String) (h : f ≠ key) :
    updateIfPresent features m key v f = m f := by
  rw [updateIfPresent]
  split
  · rw [Function.update_apply, if_neg h]
  · rfl

/-- Reading an `updateIfPresent` map at its own key, when the key is in
the schema, sees the written value. -/
theorem updateIfPresent_apply_self (features : List String) (m : String → ℝ)
    (key : String) (v : ℝ) (h : key ∈ features) :
    updateIfPresent features m key v key = v := by
  rw [updateIfPresent, if_pos h, Function.update_same]

/-- Reassociation of the interaction key. -/
theorem interaction_key_eq (s t : String) :
    "interaction_" ++ s ++ "_" ++ t = "interaction_" ++ (s ++ ("_" ++ t)) := by
  rw [String.append_assoc, String.append_assoc]

/-- A situation key never equals a fixed geometry column. -/
theorem sitKey_ne_fixed (s q : String)
    (h1 : ¬ ("situation_" : String).data <+: q.data)
    (h2 : ¬ q.data <+: ("situation_" : String).data) : "situation_" ++ s ≠ q :=
  append_ne_fixed "situation_" s q h1 h2

/-- A shot-type key never equals a fixed geometry column. -/
theorem shtKey_ne_fixed (t q : String)
    (h1 : ¬ ("shotType_" : String).data <+: q.data)
    (h2 : ¬ q.data <+: ("shotType_" : String).data) : "shotType_" ++ t ≠ q :=
  append_ne_fixed "shotType_" t q h1 h2

/-- An interaction key never equals a fixed geometry column. -/
theorem intKey_ne_fixed (s t q : String)
    (h1 : ¬ ("interaction_" : String).data <+: q.data)
    (h2 : ¬ q.data <+: ("interaction_" : String).data) :
    "interaction_" ++ s ++ "_" ++ t ≠ q := by
  rw [interaction_key_eq]
  exact append_ne_fixed "interaction_" (s ++ ("_" ++ t)) q h1 h2

/-- Situation and shot-type keys are always distinct. -/
theorem sitKey_ne_shtKey (s t : String) : "situation_" ++ s ≠ "shotType_" ++ t :=
  ne_of_not_prefix "situation_" "shotType_" s t (by decide) (by decide)

/-- Situation and interaction keys are always distinct. -/
theorem sitKey_ne_intKey (s u v : String) :
    "situation_" ++ s ≠ "interaction_" ++ u ++ "_" ++ v := by
  rw [interaction_key_eq]
  exact ne_of_not_prefix "situation_" "interaction_" s (u ++ ("_" ++ v)) (by decide) (by decide)

/-- Shot-type and interaction keys are always distinct. -/
theorem shtKey_ne_intKey (t u v : String) :
    "shotType_" ++ t ≠ "interaction_" ++ u ++ "_" ++ v := by
  rw [interaction_key_eq]
  exact ne_of_not_prefix "shotType_" "interaction_" t (u ++ ("_" ++ v)) (by decide) (by decide)

/-- Pointwise agreement of the source feature map with the reference
column definition, for every schema column: the update chain writes
pairwise-distinct keys, so the value read back at a column is exactly
the reference value. -/
theorem featureValue_eq_spec (x y : ℝ) (situation shotType : Option String)
    (features : List String) (f : String) (hf : f ∈ features) :
    featureValue x y situation shotType features f =
      specFeature x y situation shotType f := by
  by_cases hX : f = "X"
  · subst hX
    rw [show specFeature x y situation shotType "X" = x from by
      rw [specFeature, if_pos rfl]]
    rcases situation with _ | s <;> rcases shotType with _ | t <;> simp only [featureValue]
    · rw [updateIfPresent_apply_ne _ _ _ _ _ (by decide : ("X" : String) ≠ "angle_to_goal"),
        updateIfPresent_apply_ne _ _ _ _ _ (by decide : ("X" : String) ≠ "distance_to_goal"),
        updateIfPresent_apply_ne _ _ _ _ _ (by decide : ("X" : String) ≠ "Y"),
        updateIfPresent_apply_self _ _ _ _ hf]
    · rw [updateIfPresent_apply_ne _ _ _ _ _ (shtKey_ne_fixed t "X" (by decide) (by decide)).symm,
        updateIfPresent_apply_ne _ _ _ _ _ (by decide : ("X" : String) ≠ "angle_to_goal"),
        updateIfPresent_apply_ne _ _ _ _ _ (by decide : ("X" : String) ≠ "distance_to_goal"),
        updateIfPresent_apply_ne _ _ _ _ _ (by decide : ("X" : String) ≠ "Y"),
        updateIfPresent_apply_self _ _ _ _ hf]
    · rw [updateIfPresent_apply_ne _ _ _ _ _ (sitKey_ne_fixed s "X" (by decide) (by decide)).symm,
        updateIfPresent_apply_ne _ _ _ _ _ (by decide : ("X" : String) ≠ "angle_to_goal"),
        updateIfPresent_apply_ne _ _ _ _ _ (by decide : ("X" : String) ≠ "distance_to_goal"),
        updateIfPresent_apply_ne _ _ _ _ _ (by decide : ("X" : String) ≠ "Y"),
        updateIfPresent_apply_self _ _ _ _ hf]
    · rw [updateIfPresent_apply_ne _ _ _ _ _ (intKey_ne_fixed s t "X" (by decide) (by decide)).symm,
        updateIfPresent_apply_ne _ _ _ _ _ (shtKey_ne_fixed t "X" (by decide) (by decide)).symm,
        updateIfPresent_apply_ne _ _ _ _ _ (sitKey_ne_fixed s "X" (by decide) (by decide)).symm,
        updateIfPresent_apply_ne _ _ _ _ _ (by decide : ("X" : String) ≠ "angle_to_goal"),
        updateIfPresent_apply_ne _ _ _ _ _ (by decide : ("X" : String) ≠ "distance_to_goal"),
        updateIfPresent_apply_ne _ _ _ _ _ (by decide : ("X" : String) ≠ "Y"),
        updateIfPresent_apply_self _ _ _ _ hf]
  by_cases hY : f = "Y"
  · subst hY
    rw [show specFeature x y situation shotType "Y" = y from by
      rw [specFeature, if_neg (by decide), if_pos rfl]]
    rcases situation with _ | s <;> rcases shotType with _ | t <;> simp only [featureValue]
    · rw [updateIfPresent_apply_ne _ _ _ _ _ (by decide : ("Y" : String) ≠ "angle_to_goal"),
        updateIfPresent_apply_ne _ _ _ _ _ (by decide : ("Y" : String) ≠ "distance_to_goal"),
        updateIfPresent_apply_self _ _ _ _ hf]
    · rw [updateIfPresent_apply_ne _ _ _ _ _ (shtKey_ne_fixed t "Y" (by decide) (by decide)).symm,
        updateIfPresent_apply_ne _ _ _ _ _ (by decide : ("Y" : String) ≠ "angle_to_goal"),
        updateIfPresent_apply_ne _ _ _ _ _ (by decide : ("Y" : String) ≠ "distance_to_goal"),
        updateIfPresent_apply_self _ _ _ _ hf]
    · rw [updateIfPresent_apply_ne _ _ _ _ _ (sitKey_ne_fixed s "Y" (by decide) (by decide)).symm,
        updateIfPresent_apply_ne _ _ _ _ _ (by decide : ("Y" : String) ≠ "angle_to_goal"),
        updateIfPresent_apply_ne _ _ _ _ _ (by decide : ("Y" : String) ≠ "distance_to_goal"),
        updateIfPresent_apply_self _ _ _ _ hf]
    · rw [updateIfPresent_apply_ne _ _ _ _ _ (intKey_ne_fixed s t "Y" (by decide) (by decide)).symm,
        updateIfPresent_apply_ne _ _ _ _ _ (shtKey_ne_fixed t "Y" (by decide) (by decide)).symm,
        updateIfPresent_apply_ne _ _ _ _ _ (sitKey_ne_fixed s "Y" (by decide) (by decide)).symm,
        updateIfPresent_apply_ne _ _ _ _ _ (by decide : ("Y" : String) ≠ "angle_to_goal"),
        updateIfPresent_apply_ne _ _ _ _ _ (by decide : ("Y" : String) ≠ "distance_to_goal"),
        updateIfPresent_apply_self _ _ _ _ hf]
  by_cases hD : f = "distance_to_goal"
  · subst hD
    rw [show specFeature x y situation shotType "distance_to_goal" = specDistance x y from by
      rw [specFeature, if_neg (by decide), if_neg (by decide), if_pos rfl]]
    rw [← distanceToGoal_eq_spec]
    rcases situation with _ | s <;> rcases shotType with _ | t <;> simp only [featureValue]
    · rw [updateIfPresent_apply_ne _ _ _ _ _
        (by decide : ("distance_to_goal" : String) ≠ "angle_to_goal"),
        updateIfPresent_apply_self _ _ _ _ hf]
    · rw [updateIfPresent_apply_ne _ _ _ _ _
        (shtKey_ne_fixed t "distance_to_goal" (by decide) (by decide)).symm,
        updateIfPresent_apply_ne _ _ _ _ _
          (by decide : ("distance_to_goal" : String) ≠ "angle_to_goal"),
        updateIfPresent_apply_self _ _ _ _ hf]
    · rw [updateIfPresent_apply_ne _ _ _ _ _
        (sitKey_ne_fixed s "distance_to_goal" (by decide) (by decide)).symm,
        updateIfPresent_apply_ne _ _ _ _ _
          (by decide : ("distance_to_goal" : String) ≠ "angle_to_goal"),
        updateIfPresent_apply_self _ _ _ _ hf]
    · rw [updateIfPresent_apply_ne _ _ _ _ _
        (intKey_ne_fixed s t "distance_to_goal" (by decide) (by decide)).symm,
        updateIfPresent_apply_ne _ _ _ _ _
          (shtKey_ne_fixed t "distance_to_goal" (by decide) (by decide)).symm,
        updateIfPresent_apply_ne _ _ _ _ _
          (sitKey_ne_fixed s "distance_to_goal" (by decide) (by decide)).symm,
        updateIfPresent_apply_ne _ _ _ _ _
          (by decide : ("distance_to_goal" : String) ≠ "angle_to_goal"),
        updateIfPresent_apply_self _ _ _ _ hf]
  by_cases hA : f = "angle_to_goal"
  · subst hA
    rw [show specFeature x y situation shotType "angle_to_goal" = specAngle x y from by
      rw [specFeature, if_neg (by decide), if_neg (by decide), if_neg (by decide), if_pos rfl]]
    rw [← angleToGoal_eq_spec]
    rcases situation with _ | s <;> rcases shotType with _ | t <;> simp only [featureValue]
    · rw [updateIfPresent_apply_self _ _ _ _ hf]
    · rw [updateIfPresent_apply_ne _ _ _ _ _
        (shtKey_ne_fixed t "angle_to_goal" (by decide) (by decide)).symm,
        updateIfPresent_apply_self _ _ _ _ hf]
    · rw [updateIfPresent_apply_ne _ _ _ _ _
        (sitKey_ne_fixed s "angle_to_goal" (by decide) (by decide)).symm,
        updateIfPresent_apply_self _ _ _ _ hf]
    · rw [updateIfPresent_apply_ne _ _ _ _ _
        (intKey_ne_fixed s t "angle_to_goal" (by decide) (by decide)).symm,
        updateIfPresent_apply_ne _ _ _ _ _
          (shtKey_ne_fixed t "angle_to_goal" (by decide) (by decide)).symm,
        updateIfPresent_apply_ne _ _ _ _ _
          (sitKey_ne_fixed s "angle_to_goal" (by decide) (by decide)).symm,
        updateIfPresent_apply_self _ _ _ _ hf]
  -- f is none of the fixed geometry columns
  rcases situation with _ | s
  · rcases shotType with _ | t
    · simp only [featureValue]
      rw [updateIfPresent_apply_ne _ _ _ _ _ hA, updateIfPresent_apply_ne _ _ _ _ _ hD,
        updateIfPresent_apply_ne _ _ _ _ _ hY, updateIfPresent_apply_ne _ _ _ _ _ hX]
      rw [specFeature, if_neg hX, if_neg hY, if_neg hD, if_neg hA,
        if_neg (by rintro ⟨s, hcon, _⟩; cases hcon),
        if_neg (by rintro ⟨t, hcon, _⟩; cases hcon),
        if_neg (by rintro ⟨s, t, hcon, _, _⟩; cases hcon)]
    · by_cases hT : f = "shotType_" ++ t
      · subst hT
        simp only [featureValue]
        rw [updateIfPresent_apply_self _ _ _ _ hf]
        rw [specFeature, if_neg hX, if_neg hY, if_neg hD, if_neg hA,
          if_neg (by rintro ⟨s, hcon, _⟩; cases hcon),
          if_pos ⟨t, rfl, rfl⟩]
      · simp only [featureValue]
        rw [updateIfPresent_apply_ne _ _ _ _ _ hT, updateIfPresent_apply_ne _ _ _ _ _ hA,
          updateIfPresent_apply_ne _ _ _ _ _ hD, updateIfPresent_apply_ne _ _ _ _ _ hY,
          updateIfPresent_apply_ne _ _ _ _ _ hX]
        rw [specFeature, if_neg hX, if_neg hY, if_neg hD, if_neg hA,
          if_neg (by rintro ⟨s, hcon, _⟩; cases hcon),
          if_neg (by
            rintro ⟨t2, ht2, hfe⟩
            rw [Option.some.injEq] at ht2
            subst ht2
            exact hT hfe),
          if_neg (by rintro ⟨s, t2, hcon, _, _⟩; cases hcon)]
  · rcases shotType with _ | t
    · by_cases hS : f = "situation_" ++ s
      · subst hS
        simp only [featureValue]
        rw [updateIfPresent_apply_self _ _ _ _ hf]
        rw [specFeature, if_neg hX, if_neg hY, if_neg hD, if_neg hA,
          if_pos ⟨s, rfl, rfl⟩]
      · simp only [featureValue]
        rw [updateIfPresent_apply_ne _ _ _ _ _ hS, updateIfPresent_apply_ne _ _ _ _ _ hA,
          updateIfPresent_apply_ne _ _ _ _ _ hD, updateIfPresent_apply_ne _ _ _ _ _ hY,
          updateIfPresent_apply_ne _ _ _ _ _ hX]
        rw [specFeature, if_neg hX, if_neg hY, if_neg hD, if_neg hA,
          if_neg (by
            rintro ⟨s2, hs2, hfe⟩
            rw [Option.some.injEq] at hs2
            subst hs2
            exact hS hfe),
          if_neg (by rintro ⟨t, hcon, _⟩; cases hcon),
          if_neg (by rintro ⟨s2, t, _, hcon, _⟩; cases hcon)]
    · by_cases hS : f = "situation_" ++ s
      · subst hS
        simp only [featureValue]
        rw [updateIfPresent_apply_ne _ _ _ _ _ (sitKey_ne_intKey s s t),
          updateIfPresent_apply_ne _ _ _ _ _ (sitKey_ne_shtKey s t),
          updateIfPresent_apply_self _ _ _ _ hf]
        rw [specFeature, if_neg hX, if_neg hY, if_neg hD, if_neg hA,
          if_pos ⟨s, rfl, rfl⟩]
      · by_cases hT : f = "shotType_" ++ t
        · subst hT
          simp only [featureValue]
          rw [updateIfPresent_apply_ne _ _ _ _ _ (shtKey_ne_intKey t s t),
            updateIfPresent_apply_self _ _ _ _ hf]
          rw [specFeature, if_neg hX, if_neg hY, if_neg hD, if_neg hA,
            if_neg (by
              rintro ⟨s2, hs2, hfe⟩
              rw [Option.some.injEq] at hs2
              subst hs2
              exact (sitKey_ne_shtKey s t).symm hfe),
            if_pos ⟨t, rfl, rfl⟩]
        · by_cases hI : f = "interaction_" ++ s ++ "_" ++ t
          · subst hI
            simp only [featureValue]
            rw [updateIfPresent_apply_self _ _ _ _ hf]
            rw [specFeature, if_neg hX, if_neg hY, if_neg hD, if_neg hA,
              if_neg (by
                rintro ⟨s2, hs2, hfe⟩
                rw [Option.some.injEq] at hs2
                subst hs2
                exact (sitKey_ne_intKey s s t).symm hfe),
              if_neg (by
                rintro ⟨t2, ht2, hfe⟩
                rw [Option.some.injEq] at ht2
                subst ht2
                exact (shtKey_ne_intKey t s t).symm hfe),
              if_pos ⟨s, t, rfl, rfl, rfl⟩]
          · simp only [featureValue]
            rw [updateIfPresent_apply_ne _ _ _ _ _ hI, updateIfPresent_apply_ne _ _ _ _ _ hT,
              updateIfPresent_apply_ne _ _ _ _ _ hS, updateIfPresent_apply_ne _ _ _ _ _ hA,
              updateIfPresent_apply_ne _ _ _ _ _ hD, updateIfPresent_apply_ne _ _ _ _ _ hY,
              updateIfPresent_apply_ne _ _ _ _ _ hX]
            rw [specFeature, if_neg hX, if_neg hY, if_neg hD, if_neg hA,
              if_neg (by
                rintro ⟨s2, hs2, hfe⟩
                rw [Option.some.injEq] at hs2
                subst hs2
                exact hS hfe),
              if_neg (by
                rintro ⟨t2, ht2, hfe⟩
                rw [Option.some.injEq] at ht2
                subst ht2
                exact hT hfe),
              if_neg (by
                rintro ⟨s2, t2, hs2, ht2, hfe⟩
                rw [Option.some.injEq] at hs2 ht2
                subst hs2
                subst ht2
                exact hI hfe)]

/-- C3: the built feature vector equals, column by column, the reference
definition written from the spec: its length and positional order match
the schema exactly (it is the schema mapped through the reference column
value), every column not set by the inputs stays 0.0, X/Y are the
coordinates, distance and angle follow the reference formulas (angle 0
at a goalpost rather than an error), the one-hot and interaction
columns are 1.0 exactly when present in the schema and matched by the
inputs.  Stated for every coordinate pair, every situation/shotType and
every schema, in particular the four `MODEL_FEATURES` schemas. -/
theorem claim_feature_vector_reference (x y : ℝ) (situation shotType : Option String)
    (features : List String) :
    buildFeatureVector x y situation shotType features =
      features.map (specFeature x y situation shotType) ∧
    (buildFeatureVector x y situation shotType features).length = features.length ∧
    ∀ name, buildFeatureVector x y situation shotType (MODEL_FEATURES name) =
      (MODEL_FEATURES name).map (specFeature x y situation shotType) := by
  have hmain : ∀ fs : List String, buildFeatureVector x y situation shotType fs =
      fs.map (specFeature x y situation shotType) := by
    intro fs
    rw [buildFeatureVector]
    exact List.map_congr_left (fun f hf => featureValue_eq_spec x y situation shotType fs f hf)
  exact ⟨hmain features, by rw [buildFeatureVector, List.length_map], fun name => hmain _⟩
